import Mathlib

/-!
Shallow embedding of the event classification, alerting and summarization
engine of the AI-driven-cybersecurity repository
(`src/prediction/predictor.py` and `src/ai_agent/summarizer.py`),
together with theorems settling the specification claims about it.

Python floats are modelled as rationals (`ℚ`); Python lists as `List`;
Python dictionaries with fixed key sets as structures.  Timestamps
(`datetime.now()`) are omitted: no claim is about wall-clock time.
-/

namespace AICyber

/-- Severity tiers produced by `ThreatPredictor.determine_severity`
(`predictor.py`): the four string constants `"HIGH"`, `"MEDIUM"`,
`"LOW"`, `"INFO"`. -/
inductive Severity
  | HIGH
  | MEDIUM
  | LOW
  | INFO
deriving DecidableEq, Repr

/-- The three severity thresholds held by a `ThreatPredictor`
(`self.threshold_high/_medium/_low` in `predictor.py`). -/
structure Thresholds where
  high : ℚ
  medium : ℚ
  low : ℚ
deriving DecidableEq, Repr

/-- The constructor defaults of `ThreatPredictor.__init__`:
high = 0.8, medium = 0.5, low = 0.3. -/
def defaultThresholds : Thresholds :=
  { high := 8/10, medium := 5/10, low := 3/10 }

/-- `ThreatPredictor.determine_severity` (`predictor.py` lines 79–96):
descending cascade of `confidence >= threshold` comparisons. -/
def determine_severity (t : Thresholds) (confidence : ℚ) : Severity :=
  if confidence ≥ t.high then .HIGH
  else if confidence ≥ t.medium then .MEDIUM
  else if confidence ≥ t.low then .LOW
  else .INFO

/-- C1: with the default thresholds high=0.8, medium=0.5, low=0.3,
`determine_severity` returns HIGH iff c ≥ 0.8, MEDIUM iff 0.5 ≤ c < 0.8,
LOW iff 0.3 ≤ c < 0.5, and INFO iff c < 0.3. -/
theorem determine_severity_default_characterization (c : ℚ) :
    (determine_severity defaultThresholds c = .HIGH ↔ 8/10 ≤ c) ∧
    (determine_severity defaultThresholds c = .MEDIUM ↔ 5/10 ≤ c ∧ c < 8/10) ∧
    (determine_severity defaultThresholds c = .LOW ↔ 3/10 ≤ c ∧ c < 5/10) ∧
    (determine_severity defaultThresholds c = .INFO ↔ c < 3/10) := by
  simp only [determine_severity, defaultThresholds]
  split_ifs with h1 h2 h3 <;>
    refine ⟨?_, ?_, ?_, ?_⟩ <;> constructor <;> intro h <;>
    first
      | rfl
      | exact h.elim
      | exact Severity.noConfusion h
      | (constructor <;> linarith)
      | linarith

/-- The string name of a severity tier, as carried in the Python result
dictionaries (`result['severity']`). -/
def severityStr : Severity → String
  | .HIGH => "HIGH"
  | .MEDIUM => "MEDIUM"
  | .LOW => "LOW"
  | .INFO => "INFO"

/-- Nearest-integer rounding on `ℚ` (ties rounded up), written with
explicit floor division so that it evaluates by kernel reduction; this
models the rounding performed by Python percentage formatting. -/
def ratRound (q : ℚ) : ℤ := Int.fdiv (2 * q.num + q.den) (2 * q.den)

/-- Python f-string `:.1%` formatting of a rational (a percentage with one
decimal place), modelled as rounding `1000 * q` to the nearest integer and
placing the decimal point. -/
def fmtPct1 (q : ℚ) : String :=
  let n : ℤ := ratRound (q * 1000)
  toString (n / 10) ++ "." ++ toString (n % 10) ++ "%"

/-- Python f-string `:.2%` formatting of a rational (a percentage with two
decimal places). -/
def fmtPct2 (q : ℚ) : String :=
  let n : ℤ := ratRound (q * 10000)
  toString (n / 100) ++ "." ++ (if n % 100 < 10 then "0" else "") ++
    toString (n % 100) ++ "%"

/-- Whether the character list `sub` occurs at the head of `l`. -/
def listStarts : List Char → List Char → Bool
  | [], _ => true
  | _ :: _, [] => false
  | c :: cs, d :: ds => c == d && listStarts cs ds

/-- Whether `sub` occurs as a contiguous run inside `l`: the Python
substring test `sub in s`. -/
def listHasRun (sub : List Char) : List Char → Bool
  | [] => sub.isEmpty
  | d :: ds => listStarts sub (d :: ds) || listHasRun sub ds

/-- The Python substring test `sub in s` on strings. -/
def strHasSub (s sub : String) : Bool := listHasRun sub.toList s.toList

/-- The traffic-attribute dictionary fields read by the summarizer and the
monitor (`data.get('source_ip', ...)`, …).  All keys are modelled as
present; `tcp_flags` is the flag string (e.g. `"SYN"` or `"SYN,ACK"`),
matching the Python substring test `'SYN' in tcp_flags`. -/
structure TrafficData where
  source_ip : String
  destination_ip : String
  destination_port : ℕ
  protocol : String
  packet_size : ℕ
  tcp_flags : String
deriving DecidableEq, Repr

/-- `SecurityEventSummarizer._infer_attack_type` (`summarizer.py`
lines 162–202): prioritized if/elif rule cascade, first match wins.
The `isinstance(tcp_flags, str)` guard always holds in this typed model. -/
def infer_attack_type (data : TrafficData) : String :=
  if strHasSub data.tcp_flags "SYN" = true ∧ data.destination_port > 1024 then
    "Port Scan"
  else if data.destination_port = 3306 ∨ data.destination_port = 5432 ∨
      data.destination_port = 1433 then
    "Potential SQL Injection"
  else if data.destination_port = 80 ∨ data.destination_port = 443 ∨
      data.destination_port = 8080 ∨ data.destination_port = 8443 then
    "Potential Web Attack (XSS/Injection)"
  else if data.destination_port = 22 then
    "Potential SSH Brute Force"
  else if data.destination_port = 3389 then
    "Potential RDP Attack"
  else if data.packet_size > 1400 then
    "Potential DDoS/Flooding"
  else
    "Suspicious Network Activity"

/-- One entry of `SecurityEventSummarizer.severity_descriptions`. -/
structure SeverityDescription where
  urgency : String
  impact : String
  recommendation : String
deriving DecidableEq, Repr

/-- The `severity_descriptions` lookup table built in
`SecurityEventSummarizer.__init__`; every severity key is present, so the
Python `.get(severity, {})` fallback never fires. -/
def severity_descriptions : Severity → SeverityDescription
  | .HIGH => ⟨"CRITICAL - Immediate action required",
      "High risk to system security",
      "Block source and investigate immediately"⟩
  | .MEDIUM => ⟨"WARNING - Action required soon",
      "Moderate risk to system security",
      "Monitor closely and prepare response"⟩
  | .LOW => ⟨"ADVISORY - Monitor situation",
      "Low risk to system security",
      "Log for analysis and watch for patterns"⟩
  | .INFO => ⟨"INFORMATIONAL - No immediate action needed",
      "Minimal or no security impact",
      "Keep for historical analysis"⟩

/-- The keys produced by `_generate_threat_summary` /
`_generate_benign_summary` (`summarizer.py`). -/
structure SummaryCore where
  title : String
  description : String
  urgency : String
  impact : String
  source : String
  target : String
  attack_type : String
  confidence_level : String
deriving DecidableEq, Repr

/-- The full summary dictionary returned by
`SecurityEventSummarizer.summarize_single_event`: the core keys plus the
`recommendations` and `explanation` keys added afterwards. -/
structure EventSummary extends SummaryCore where
  recommendations : List String
  explanation : String
deriving DecidableEq, Repr

/-- `SecurityEventSummarizer._generate_threat_summary` (`summarizer.py`
lines 94–131).  The Python truthiness test `if attack_type:` is the
nonempty-string test. -/
def generate_threat_summary (data : TrafficData) (confidence : ℚ)
    (severity : Severity) : SummaryCore :=
  let attack_type := infer_attack_type data
  let si := severity_descriptions severity
  let descBase :=
    "A potential cyber threat has been detected with " ++ fmtPct1 confidence ++
    " confidence. The system identified suspicious network activity from " ++
    data.source_ip ++ " attempting to connect to " ++ data.destination_ip ++
    " on port " ++ toString data.destination_port ++ " using " ++
    data.protocol ++ " protocol."
  { title := "🚨 Security Threat Detected - " ++ severityStr severity ++ " Severity",
    description := if attack_type ≠ "" then
        descBase ++ " This pattern is consistent with a " ++ attack_type ++ " attack."
      else descBase,
    urgency := si.urgency,
    impact := si.impact,
    source := data.source_ip,
    target := data.destination_ip,
    attack_type := if attack_type ≠ "" then attack_type else "Unknown",
    confidence_level := fmtPct1 confidence }

/-- `SecurityEventSummarizer._generate_benign_summary` (`summarizer.py`
lines 133–160): both rendered confidence figures use `1 - confidence`. -/
def generate_benign_summary (data : TrafficData) (confidence : ℚ) :
    SummaryCore :=
  { title := "✅ Normal Network Activity",
    description :=
      "The network traffic from " ++ data.source_ip ++ " to " ++
      data.destination_ip ++ " using " ++ data.protocol ++
      " protocol appears to be legitimate. The system is " ++
      fmtPct1 (1 - confidence) ++ " confident this is normal activity.",
    urgency := "NONE - Normal traffic",
    impact := "No security impact",
    source := data.source_ip,
    target := data.destination_ip,
    attack_type := "N/A - Benign Traffic",
    confidence_level := fmtPct1 (1 - confidence) ++ " (benign)" }

/-- `SecurityEventSummarizer._generate_recommendations` (`summarizer.py`
lines 204–261).  The function receives only `is_threat`, `severity` and
the traffic data — no confidence parameter exists in the source.  The
third MEDIUM entry reproduces the source literally: that line is a plain
(non-f) Python string, so `{dest_port}` appears verbatim. -/
def generate_recommendations (is_threat : Bool) (severity : Severity)
    (data : TrafficData) : List String :=
  if is_threat = false then
    ["✓ Continue normal monitoring",
     "✓ No action required at this time",
     "✓ Log event for historical analysis"]
  else
    match severity with
    | .HIGH =>
      ["🔴 IMMEDIATELY block traffic from " ++ data.source_ip,
       "🔴 Isolate affected system at " ++ data.destination_ip,
       "🔴 Alert security team for incident response",
       "🔴 Capture network traffic for forensic analysis",
       "🔴 Check for signs of compromise on target system"]
    | .MEDIUM =>
      ["🟡 Monitor traffic from " ++ data.source_ip ++ " closely",
       "🟡 Consider rate-limiting or temporary block",
       "🟡 Review firewall rules for port \x7bdest_port\x7d",
       "🟡 Check system logs for related activity",
       "🟡 Prepare incident response team"]
    | .LOW =>
      ["🟢 Log and monitor " ++ data.source_ip ++ " for pattern analysis",
       "🟢 Review security policies",
       "🟢 Update threat intelligence database",
       "🟢 Schedule routine security audit"]
    | .INFO =>
      ["ℹ️ Record event for trend analysis",
       "ℹ️ No immediate action required"]

/-- `SecurityEventSummarizer._generate_explanation` (`summarizer.py`
lines 263–317).  The `severity` argument is accepted but unused by the
source beyond a dead lookup, mirrored here. -/
def generate_explanation (is_threat : Bool) (confidence : ℚ)
    (severity : Severity) : String :=
  if is_threat = false then
    "Our AI model analyzed the network traffic patterns and determined " ++
    "this activity is consistent with normal, legitimate network behavior. " ++
    "The traffic exhibits characteristics typical of authorized applications " ++
    "and users."
  else
    let _ := severity_descriptions severity
    let base :=
      "Our machine learning model detected unusual patterns in this network traffic " ++
      "with " ++ fmtPct1 confidence ++ " confidence. The activity shows characteristics " ++
      "commonly associated with cyber attacks. "
    if confidence ≥ 9/10 then
      base ++ "The extremely high confidence score indicates the model is very certain " ++
        "this is malicious activity based on learned attack patterns."
    else if confidence ≥ 7/10 then
      base ++ "The high confidence score suggests strong indicators of malicious intent " ++
        "based on multiple suspicious characteristics."
    else if confidence ≥ 5/10 then
      base ++ "The moderate confidence score indicates some suspicious characteristics, " ++
        "but the activity could potentially be legitimate. Further investigation recommended."
    else
      base ++ "The lower confidence score suggests only mild suspicion. " ++
        "This could be a false positive, but should be monitored."

/-- The prediction dictionary produced by `ThreatPredictor.predict_single`
and consumed by the summarizer and monitor; the `timestamp` key is
omitted (wall-clock time is outside the model). -/
structure Prediction where
  is_threat : Bool
  confidence : ℚ
  severity : Severity
  input_data : TrafficData
deriving DecidableEq, Repr

/-- `SecurityEventSummarizer.summarize_single_event` (`summarizer.py`
lines 59–92): dispatch on `is_threat`, then attach recommendations and
explanation. -/
def summarize_single_event (prediction : Prediction) : EventSummary :=
  { toSummaryCore :=
      if prediction.is_threat then
        generate_threat_summary prediction.input_data prediction.confidence
          prediction.severity
      else
        generate_benign_summary prediction.input_data prediction.confidence,
    recommendations :=
      generate_recommendations prediction.is_threat prediction.severity
        prediction.input_data,
    explanation :=
      generate_explanation prediction.is_threat prediction.confidence
        prediction.severity }

/-- The traffic record of the specification's test scenario:
destination port 22, protocol TCP, tcpFlags SYN, packetSize 64. -/
def sshSynTraffic : TrafficData :=
  { source_ip := "192.168.1.100", destination_ip := "10.0.0.50",
    destination_port := 22, protocol := "TCP", packet_size := 64,
    tcp_flags := "SYN" }

/-- C2: on destination port 22 with tcpFlags containing SYN, the claim
says rule 1 fires and inference returns the port-scan label, not the
brute-force label.  The source's first rule additionally requires
`destination_port > 1024`, so this input instead falls through to the
SSH rule and yields "Potential SSH Brute Force" — the code contradicts
the claim and the repository's own test
(`tests/test_ai_agent.py::test_infer_attack_type`). -/
theorem infer_attack_type_ssh_syn_is_brute_force :
    infer_attack_type sshSynTraffic = "Potential SSH Brute Force" ∧
    infer_attack_type sshSynTraffic ≠ "Port Scan" := by
  decide

/-- A threat prediction at MEDIUM severity with confidence 0.55 — below
the 0.7 caveat threshold named by the specification. -/
def medConfThreat : Prediction :=
  { is_threat := true, confidence := 55/100, severity := .MEDIUM,
    input_data := sshSynTraffic }

/-- C5: the claim says the recommendation list of a threat event ends
with a low-confidence caveat exactly when confidence < 0.7.  The source's
`_generate_recommendations` does not receive the confidence at all and
never appends a caveat: for a MEDIUM threat with confidence 0.55 the list
is the fixed five-entry MEDIUM list, and no entry mentions a manual
review.  (The repository's own test calls `_generate_recommendations`
with a `confidence` argument the shipped signature does not accept.) -/
theorem recommendations_no_low_confidence_caveat :
    medConfThreat.is_threat = true ∧
    medConfThreat.confidence < 7/10 ∧
    (summarize_single_event medConfThreat).recommendations =
      ["🟡 Monitor traffic from 192.168.1.100 closely",
       "🟡 Consider rate-limiting or temporary block",
       "🟡 Review firewall rules for port \x7bdest_port\x7d",
       "🟡 Check system logs for related activity",
       "🟡 Prepare incident response team"] ∧
    ((summarize_single_event medConfThreat).recommendations.all
      fun r => !(strHasSub r "manual review")) = true := by
  refine ⟨rfl, ?_, by decide, by decide⟩
  show (55 : ℚ)/100 < 7/10
  norm_num

/-- C6: for every benign event, the rendered benign confidence field is
`1 - confidence` formatted as a percentage with one decimal place (with
the source's literal `" (benign)"` suffix). -/
theorem benign_confidence_level_inverted (p : Prediction)
    (h : p.is_threat = false) :
    (summarize_single_event p).confidence_level =
      fmtPct1 (1 - p.confidence) ++ " (benign)" := by
  simp [summarize_single_event, generate_benign_summary, h]

/-- The specification's benign scenario: the classifier returns
`(false, 0.15)` on the SSH/SYN attributes. -/
def benignScenario : Prediction :=
  { is_threat := false, confidence := 15/100, severity := .INFO,
    input_data := sshSynTraffic }

/-- Witness for C6: on the `(false, 0.15)` scenario the benign confidence
field renders as `85.0%`. -/
theorem benign_confidence_level_inverted_witness :
    benignScenario.is_threat = false ∧
    (summarize_single_event benignScenario).confidence_level =
      "85.0% (benign)" := by
  refine ⟨rfl, ?_⟩
  rw [benign_confidence_level_inverted benignScenario rfl]
  have h2 : (1 - benignScenario.confidence) * 1000 = 850 := by
    norm_num [benignScenario]
  simp only [fmtPct1, ratRound]
  rw [h2, Rat.num_ofNat, Rat.den_ofNat]
  decide

/-- `ThreatPredictor` state: the loaded model (`None` until `load_model`
succeeds) and the three thresholds.  The external scikit-learn model is
modelled as a function from traffic data to the pair
(`predict` label, `predict_proba` threat-class probability); a model call
that raises is an `Except.error`. -/
structure ThreatPredictor where
  model : Option (TrafficData → Except String (Bool × ℚ))
  thresholds : Thresholds

/-- `ThreatPredictor.predict_single` (`predictor.py` lines 98–132):
raises `ValueError("Model not loaded")` when no model is loaded,
otherwise queries the model and derives the severity; the `timestamp`
key is omitted from the model. -/
def predict_single (p : ThreatPredictor) (data : TrafficData) :
    Except String Prediction :=
  match p.model with
  | none => .error "Model not loaded"
  | some m =>
    match m data with
    | .error e => .error e
    | .ok r =>
      .ok { is_threat := r.1, confidence := r.2,
            severity := determine_severity p.thresholds r.2,
            input_data := data }

/-- The four-key severity counter dictionary
(`{'HIGH': 0, 'MEDIUM': 0, 'LOW': 0, 'INFO': 0}`). -/
structure SeverityCounts where
  HIGH : ℕ
  MEDIUM : ℕ
  LOW : ℕ
  INFO : ℕ
deriving DecidableEq, Repr

/-- One iteration of the counting loop in `analyze_threats`
(`severity_counts[pred['severity']] += 1`). -/
def bumpSeverity (c : SeverityCounts) : Severity → SeverityCounts
  | .HIGH => { c with HIGH := c.HIGH + 1 }
  | .MEDIUM => { c with MEDIUM := c.MEDIUM + 1 }
  | .LOW => { c with LOW := c.LOW + 1 }
  | .INFO => { c with INFO := c.INFO + 1 }

/-- The sum of the four counter values
(`sum(severity_counts.values())`). -/
def SeverityCounts.total (c : SeverityCounts) : ℕ :=
  c.HIGH + c.MEDIUM + c.LOW + c.INFO

/-- The summary dictionary returned by `ThreatPredictor.analyze_threats`;
the `timestamp` key is omitted. -/
structure ThreatAnalysis where
  total_analyzed : ℕ
  threat_count : ℕ
  benign_count : ℕ
  threat_rate : ℚ
  average_confidence : ℚ
  severity_distribution : SeverityCounts
  high_severity_threats : ℕ
deriving DecidableEq, Repr

/-- `ThreatPredictor.analyze_threats` (`predictor.py` lines 197–233).
`np.mean` over the list of confidences is `sum / length`; on the empty
list numpy yields NaN, modelled here as the rational `0 / 0 = 0` — no
claim depends on the average. -/
def analyze_threats (predictions : List Prediction) : ThreatAnalysis :=
  let total := predictions.length
  let threats := predictions.filter (fun p => p.is_threat)
  let threat_count := threats.length
  let severity_counts :=
    predictions.foldl (fun c p => bumpSeverity c p.severity) ⟨0, 0, 0, 0⟩
  let avg_confidence := (predictions.map (fun p => p.confidence)).sum / total
  let threat_rate : ℚ := if total > 0 then (threat_count : ℚ) / total else 0
  { total_analyzed := total,
    threat_count := threat_count,
    benign_count := total - threat_count,
    threat_rate := threat_rate,
    average_confidence := avg_confidence,
    severity_distribution := severity_counts,
    high_severity_threats := severity_counts.HIGH }

/-- Python f-string `:.1f` formatting of a rational (one decimal place),
modelled as rounding `10 * q` and placing the decimal point. -/
def fmtFix1 (q : ℚ) : String :=
  let n : ℤ := ratRound (q * 10)
  toString (n / 10) ++ "." ++ toString (n % 10)

/-- `SecurityEventSummarizer._generate_executive_summary`
(`summarizer.py` lines 367–420): priority banner (any HIGH, else any
MEDIUM, else any threat, else all clear) followed by the fixed-format
statistics block. -/
def generate_executive_summary (total threat_count : ℕ)
    (severity_counts : SeverityCounts) : String :=
  let threat_rate : ℚ :=
    if total > 0 then (threat_count : ℚ) / total * 100 else 0
  let sm : String × String :=
    if severity_counts.HIGH > 0 then
      ("🚨 CRITICAL ALERT",
       "URGENT: " ++ toString severity_counts.HIGH ++
       " high-severity threats detected! Immediate action required. ")
    else if severity_counts.MEDIUM > 0 then
      ("⚠️ WARNING",
       "WARNING: " ++ toString severity_counts.MEDIUM ++
       " medium-severity threats detected. Action recommended. ")
    else if threat_count > 0 then
      ("ℹ️ ADVISORY",
       "ADVISORY: " ++ toString threat_count ++
       " low-severity threats detected. Monitoring recommended. ")
    else
      ("✅ ALL CLEAR",
       "All analyzed traffic appears legitimate. No threats detected. ")
  sm.1 ++ "\n\n" ++ sm.2 ++
    "Analysis Summary: " ++ toString total ++ " network events analyzed, " ++
    toString threat_count ++ " threats identified (" ++ fmtFix1 threat_rate ++
    "% threat rate).\n\n" ++
    "Severity Distribution:\n" ++
    "  • Critical (HIGH): " ++ toString severity_counts.HIGH ++ "\n" ++
    "  • Warning (MEDIUM): " ++ toString severity_counts.MEDIUM ++ "\n" ++
    "  • Advisory (LOW): " ++ toString severity_counts.LOW ++ "\n" ++
    "  • Info: " ++ toString severity_counts.INFO

/-- The batch summary dictionary returned by
`SecurityEventSummarizer.summarize_batch_events`; the `timestamp` key is
omitted.  `threat_rate` is the rendered percentage string. -/
structure BatchSummary where
  executive_summary : String
  total_events : ℕ
  threat_count : ℕ
  benign_count : ℕ
  severity_breakdown : SeverityCounts
  critical_alerts : List EventSummary
  threat_rate : String
deriving DecidableEq, Repr

/-- `SecurityEventSummarizer.summarize_batch_events` (`summarizer.py`
lines 319–365): per-severity counts via `sum(1 for p ... if severity ==
k)`, critical alerts are the summaries of the HIGH events in order. -/
def summarize_batch_events (predictions : List Prediction) : BatchSummary :=
  let total := predictions.length
  let threats := predictions.filter (fun p => p.is_threat)
  let threat_count := threats.length
  let severity_counts : SeverityCounts :=
    { HIGH := predictions.countP (fun p => p.severity == Severity.HIGH),
      MEDIUM := predictions.countP (fun p => p.severity == Severity.MEDIUM),
      LOW := predictions.countP (fun p => p.severity == Severity.LOW),
      INFO := predictions.countP (fun p => p.severity == Severity.INFO) }
  { executive_summary :=
      generate_executive_summary total threat_count severity_counts,
    total_events := total,
    threat_count := threat_count,
    benign_count := total - threat_count,
    severity_breakdown := severity_counts,
    critical_alerts :=
      (predictions.filter (fun p => p.severity == Severity.HIGH)).map
        summarize_single_event,
    threat_rate :=
      if total > 0 then
        fmtFix1 ((threat_count : ℚ) / total * 100) ++ "%"
      else "0%" }

/-- Folding the severity-counting loop over a list adds exactly the list
length to the total of the accumulator. -/
theorem foldl_bumpSeverity_total (l : List Prediction) (c : SeverityCounts) :
    (l.foldl (fun c p => bumpSeverity c p.severity) c).total =
      c.total + l.length := by
  induction l generalizing c with
  | nil => simp
  | cons p l ih =>
    rw [List.foldl_cons, ih, List.length_cons]
    cases p.severity <;> simp [bumpSeverity, SeverityCounts.total] <;> omega

/-- Each prediction's severity satisfies exactly one of the four
membership tests, so the four `countP` values partition the list. -/
theorem countP_severity_partition (l : List Prediction) :
    l.countP (fun p => p.severity == Severity.HIGH) +
    l.countP (fun p => p.severity == Severity.MEDIUM) +
    l.countP (fun p => p.severity == Severity.LOW) +
    l.countP (fun p => p.severity == Severity.INFO) = l.length := by
  induction l with
  | nil => simp
  | cons p l ih =>
    simp only [List.countP_cons, List.length_cons]
    cases hp : p.severity <;> simp [hp] <;> omega

/-- C7: for every event list, threat count plus benign count equals the
total, and the four severity-breakdown counts sum to the total — both
for `ThreatPredictor.analyze_threats` and for
`SecurityEventSummarizer.summarize_batch_events`. -/
theorem batch_counts_partition (predictions : List Prediction) :
    ((analyze_threats predictions).threat_count +
        (analyze_threats predictions).benign_count =
      (analyze_threats predictions).total_analyzed) ∧
    ((analyze_threats predictions).severity_distribution.total =
      (analyze_threats predictions).total_analyzed) ∧
    ((summarize_batch_events predictions).threat_count +
        (summarize_batch_events predictions).benign_count =
      (summarize_batch_events predictions).total_events) ∧
    ((summarize_batch_events predictions).severity_breakdown.total =
      (summarize_batch_events predictions).total_events) := by
  have hle : (predictions.filter (fun p => p.is_threat)).length ≤
      predictions.length := List.length_filter_le _ _
  refine ⟨?_, ?_, ?_, ?_⟩
  · simp only [analyze_threats]
    omega
  · simp only [analyze_threats]
    rw [foldl_bumpSeverity_total]
    simp [SeverityCounts.total]
  · simp only [summarize_batch_events]
    omega
  · simp only [summarize_batch_events, SeverityCounts.total]
    exact countP_severity_partition predictions

/-- C8: `analyze_threats` always reports `threat_rate` equal to
`threat_count / total` (a guarded division that is `0` when the total is
`0`), and on the empty list it reports `total = 0` and `threat_rate = 0`;
`summarize_batch_events` likewise renders `"0%"` on the empty list. -/
theorem threat_rate_total_quotient (predictions : List Prediction) :
    ((analyze_threats predictions).threat_rate =
      ((analyze_threats predictions).threat_count : ℚ) /
        ((analyze_threats predictions).total_analyzed : ℚ)) ∧
    (analyze_threats ([] : List Prediction)).total_analyzed = 0 ∧
    (analyze_threats ([] : List Prediction)).threat_rate = 0 ∧
    (summarize_batch_events ([] : List Prediction)).total_events = 0 ∧
    (summarize_batch_events ([] : List Prediction)).threat_rate = "0%" := by
  refine ⟨?_, rfl, ?_, rfl, ?_⟩
  · simp only [analyze_threats]
    cases predictions with
    | nil => simp
    | cons p l => simp
  · simp [analyze_threats]
  · simp [summarize_batch_events]

/-- One alert dictionary built by `RealTimeThreatMonitor.process_traffic`
(`predictor.py` lines 267–275); the `timestamp` key is omitted.  The
`source_ip`/`destination_ip` `.get(..., 'unknown')` fallbacks never fire
in this typed model because both keys are always present. -/
structure Alert where
  alert_id : ℕ
  severity : Severity
  confidence : ℚ
  source_ip : String
  destination_ip : String
  message : String
deriving DecidableEq, Repr

/-- The alert literal constructed inside `process_traffic`: its id is the
current alert-queue length plus one. -/
def makeAlert (queueLen : ℕ) (traffic_data : TrafficData) (result : Prediction) :
    Alert :=
  { alert_id := queueLen + 1,
    severity := result.severity,
    confidence := result.confidence,
    source_ip := traffic_data.source_ip,
    destination_ip := traffic_data.destination_ip,
    message := severityStr result.severity ++
      " severity threat detected with " ++ fmtPct2 result.confidence ++
      " confidence" }

/-- The mutable state of a `RealTimeThreatMonitor`
(`self.alert_queue` and `self.threat_history`). -/
structure MonitorState where
  alert_queue : List Alert
  threat_history : List Prediction
deriving DecidableEq, Repr

/-- `RealTimeThreatMonitor.process_traffic` (`predictor.py` lines
250–279) in explicit state-passing form.  The Python method mutates
`self` only after `predict_single` has returned, so a classifier failure
propagates with the state unchanged (first component = input state).
On success the result is always appended to the history, and an alert is
appended iff the result is a threat of HIGH or MEDIUM severity. -/
def process_traffic (p : ThreatPredictor) (s : MonitorState)
    (traffic_data : TrafficData) : MonitorState × Except String Prediction :=
  match predict_single p traffic_data with
  | .error e => (s, .error e)
  | .ok result =>
    let s1 : MonitorState :=
      { s with threat_history := s.threat_history ++ [result] }
    if result.is_threat = true ∧
        (result.severity = .HIGH ∨ result.severity = .MEDIUM) then
      ({ s1 with alert_queue :=
          s1.alert_queue ++ [makeAlert s1.alert_queue.length traffic_data result] },
        .ok result)
    else
      (s1, .ok result)

/-- `RealTimeThreatMonitor.get_active_alerts` (`predictor.py` lines
281–291): the Python slice `self.alert_queue[-limit:]` for a nonnegative
`limit`.  In Python `-0` is `0`, so `limit = 0` slices from the start and
returns the whole queue; a positive limit returns the last
`min(limit, len)` alerts. -/
def get_active_alerts (s : MonitorState) (limit : ℕ) : List Alert :=
  if limit = 0 then s.alert_queue
  else s.alert_queue.drop (s.alert_queue.length - limit)

/-- `RealTimeThreatMonitor.clear_alerts` (`predictor.py` lines 293–296). -/
def clear_alerts (s : MonitorState) : MonitorState :=
  { s with alert_queue := [] }

/-- `RealTimeThreatMonitor.get_threat_statistics` (`predictor.py` lines
298–305). -/
def get_threat_statistics (s : MonitorState) : ThreatAnalysis :=
  analyze_threats s.threat_history

/-- C3: ingestion is atomic with respect to classifier failure — if
`predict_single` raises, `process_traffic` propagates the error and both
the history and the alert queue are left unchanged. -/
theorem process_traffic_atomic_on_classifier_failure
    (p : ThreatPredictor) (s : MonitorState) (d : TrafficData) (e : String)
    (h : predict_single p d = .error e) :
    (process_traffic p s d).1.threat_history = s.threat_history ∧
    (process_traffic p s d).1.alert_queue = s.alert_queue ∧
    (process_traffic p s d).2 = .error e := by
  unfold process_traffic
  rw [h]
  exact ⟨rfl, rfl, rfl⟩

/-- A predictor whose model was never loaded (`model = None`). -/
def noModelPredictor : ThreatPredictor :=
  { model := none, thresholds := defaultThresholds }

/-- A monitor state with one alert and one history entry already present,
used to witness that a failing ingest changes neither log. -/
def demoState : MonitorState :=
  { alert_queue := [makeAlert 0 sshSynTraffic medConfThreat],
    threat_history := [medConfThreat] }

/-- Witness for C3: with no model loaded, processing traffic on a
non-empty monitor state errors and leaves both logs unchanged. -/
theorem process_traffic_atomic_witness :
    predict_single noModelPredictor sshSynTraffic = .error "Model not loaded" ∧
    (process_traffic noModelPredictor demoState sshSynTraffic).1.threat_history =
      demoState.threat_history ∧
    (process_traffic noModelPredictor demoState sshSynTraffic).1.alert_queue =
      demoState.alert_queue ∧
    (process_traffic noModelPredictor demoState sshSynTraffic).2 =
      .error "Model not loaded" :=
  ⟨rfl,
    (process_traffic_atomic_on_classifier_failure noModelPredictor demoState
      sshSynTraffic "Model not loaded" rfl).1,
    (process_traffic_atomic_on_classifier_failure noModelPredictor demoState
      sshSynTraffic "Model not loaded" rfl).2.1,
    (process_traffic_atomic_on_classifier_failure noModelPredictor demoState
      sshSynTraffic "Model not loaded" rfl).2.2⟩

/-- C4: for every successfully ingested event, the result is appended to
the history unconditionally, and an alert (with id = queue length + 1)
is appended to the alert queue iff the result is a threat of HIGH or
MEDIUM severity. -/
theorem process_traffic_alert_iff (p : ThreatPredictor) (s : MonitorState)
    (d : TrafficData) (r : Prediction)
    (h : predict_single p d = .ok r) :
    (process_traffic p s d).1.threat_history = s.threat_history ++ [r] ∧
    ((process_traffic p s d).1.alert_queue.length = s.alert_queue.length + 1 ↔
      r.is_threat = true ∧ (r.severity = .HIGH ∨ r.severity = .MEDIUM)) ∧
    (r.is_threat = true ∧ (r.severity = .HIGH ∨ r.severity = .MEDIUM) →
      (process_traffic p s d).1.alert_queue =
        s.alert_queue ++ [makeAlert s.alert_queue.length d r]) ∧
    (¬(r.is_threat = true ∧ (r.severity = .HIGH ∨ r.severity = .MEDIUM)) →
      (process_traffic p s d).1.alert_queue = s.alert_queue) := by
  unfold process_traffic
  rw [h]
  dsimp only
  by_cases hc : r.is_threat = true ∧ (r.severity = .HIGH ∨ r.severity = .MEDIUM)
  · rw [if_pos hc]
    refine ⟨rfl, ?_, fun _ => rfl, fun hn => absurd hc hn⟩
    simp [hc]
  · rw [if_neg hc]
    refine ⟨rfl, ?_, fun hcc => absurd hcc hc, fun _ => rfl⟩
    simp [hc]

/-- The prediction produced for the specification's threat scenario: the
classifier answers `(True, 0.92)`, classified HIGH under the default
thresholds. -/
def highPred : Prediction :=
  { is_threat := true, confidence := 92/100, severity := .HIGH,
    input_data := sshSynTraffic }

/-- A predictor whose loaded model always answers `(True, 0.92)`. -/
def highPredictor : ThreatPredictor :=
  { model := some (fun _ => .ok (true, 92/100)),
    thresholds := defaultThresholds }

/-- Evaluating `predict_single` on the always-`(True, 0.92)` model. -/
theorem predict_single_highPredictor :
    predict_single highPredictor sshSynTraffic = .ok highPred := by
  have hsev : determine_severity defaultThresholds (92/100) = .HIGH := by
    unfold determine_severity defaultThresholds
    rw [if_pos (by norm_num : (92:ℚ)/100 ≥ 8/10)]
  unfold predict_single highPredictor
  dsimp only
  rw [hsev]
  rfl

/-- A monitor state with empty history and empty alert queue, as built by
`RealTimeThreatMonitor.__init__`. -/
def emptyMonitor : MonitorState :=
  { alert_queue := [], threat_history := [] }

/-- Witness for C4: ingesting the SSH/SYN scenario traffic on a fresh
monitor with the `(True, 0.92)` classifier appends the event to history
and enqueues exactly one alert with id 1. -/
theorem process_traffic_alert_iff_witness :
    predict_single highPredictor sshSynTraffic = .ok highPred ∧
    highPred.is_threat = true ∧ highPred.severity = .HIGH ∧
    (process_traffic highPredictor emptyMonitor sshSynTraffic).1.threat_history
      = [highPred] ∧
    (process_traffic highPredictor emptyMonitor sshSynTraffic).1.alert_queue
      = [makeAlert 0 sshSynTraffic highPred] := by
  refine ⟨predict_single_highPredictor, rfl, rfl, ?_, ?_⟩
  · have h1 := (process_traffic_alert_iff highPredictor emptyMonitor
      sshSynTraffic highPred predict_single_highPredictor).1
    simpa [emptyMonitor] using h1
  · have h2 := (process_traffic_alert_iff highPredictor emptyMonitor
      sshSynTraffic highPred predict_single_highPredictor).2.2.1
      ⟨rfl, Or.inl rfl⟩
    simpa [emptyMonitor] using h2

/-- C10: with `limit = 0` the slice `alert_queue[-limit:]` denotes the
whole list, so `get_active_alerts` returns every enqueued alert (a
non-empty result on a non-empty queue), not an empty list. -/
theorem get_active_alerts_zero_limit_returns_all (s : MonitorState)
    (h : s.alert_queue ≠ []) :
    get_active_alerts s 0 = s.alert_queue ∧ get_active_alerts s 0 ≠ [] := by
  unfold get_active_alerts
  simp [h]

/-- Witness for C10: on a one-alert queue, `get_active_alerts` with
limit 0 returns that whole queue. -/
theorem get_active_alerts_zero_limit_witness :
    demoState.alert_queue ≠ [] ∧
    (get_active_alerts demoState 0 = demoState.alert_queue ∧
      get_active_alerts demoState 0 ≠ []) :=
  ⟨by simp [demoState], get_active_alerts_zero_limit_returns_all demoState
    (by simp [demoState])⟩

/-- The operations a caller can perform on a `RealTimeThreatMonitor`
that touch the alert queue: ingesting traffic and clearing the alerts. -/
inductive MonitorOp
  | ingest (d : TrafficData)
  | clearAlerts
deriving DecidableEq, Repr

/-- Apply one monitor operation to the state. -/
def monitor_step (p : ThreatPredictor) (s : MonitorState) :
    MonitorOp → MonitorState
  | .ingest d => (process_traffic p s d).1
  | .clearAlerts => clear_alerts s

/-- Run a sequence of monitor operations, returning the final state and
the ids of every alert assigned along the way, in assignment order. -/
def run_assigned (p : ThreatPredictor) :
    MonitorState → List MonitorOp → MonitorState × List ℕ
  | s, [] => (s, [])
  | s, o :: rest =>
    let s1 := monitor_step p s o
    let ids := (s1.alert_queue.drop s.alert_queue.length).map Alert.alert_id
    let out := run_assigned p s1 rest
    (out.1, ids ++ out.2)

/-- `process_traffic` either leaves the alert queue unchanged or appends
exactly one alert whose id is the old queue length plus one. -/
theorem process_traffic_queue_cases (p : ThreatPredictor) (s : MonitorState)
    (d : TrafficData) :
    (process_traffic p s d).1.alert_queue = s.alert_queue ∨
    ∃ a : Alert, a.alert_id = s.alert_queue.length + 1 ∧
      (process_traffic p s d).1.alert_queue = s.alert_queue ++ [a] := by
  unfold process_traffic
  cases hps : predict_single p d with
  | error e => exact Or.inl rfl
  | ok r =>
    dsimp only
    by_cases hc : r.is_threat = true ∧ (r.severity = .HIGH ∨ r.severity = .MEDIUM)
    · rw [if_pos hc]
      exact Or.inr ⟨makeAlert s.alert_queue.length d r, rfl, rfl⟩
    · rw [if_neg hc]
      exact Or.inl rfl

/-- In a run containing no `clearAlerts`, the assigned alert ids are
strictly increasing, every assigned id exceeds the starting queue length
and is bounded by the final queue length, and the queue never shrinks. -/
theorem run_assigned_no_clear (p : ThreatPredictor) :
    ∀ (ops : List MonitorOp) (s : MonitorState),
      MonitorOp.clearAlerts ∉ ops →
      List.Pairwise (fun i j => i < j) (run_assigned p s ops).2 ∧
      (∀ i ∈ (run_assigned p s ops).2,
        s.alert_queue.length < i ∧
        i ≤ (run_assigned p s ops).1.alert_queue.length) ∧
      s.alert_queue.length ≤ (run_assigned p s ops).1.alert_queue.length := by
  intro ops
  induction ops with
  | nil =>
    intro s _
    exact ⟨List.Pairwise.nil, by simp [run_assigned], le_refl _⟩
  | cons o rest ih =>
    intro s hno
    have hor : o ≠ MonitorOp.clearAlerts := fun he => hno (he ▸ List.mem_cons_self o rest)
    have hnr : MonitorOp.clearAlerts ∉ rest := fun hm => hno (List.mem_cons_of_mem o hm)
    obtain ⟨d, rfl⟩ : ∃ d, o = MonitorOp.ingest d := by
      cases o with
      | ingest d => exact ⟨d, rfl⟩
      | clearAlerts => exact absurd rfl hor
    have hstep : monitor_step p s (MonitorOp.ingest d) = (process_traffic p s d).1 := rfl
    rcases process_traffic_queue_cases p s d with hq | ⟨a, ha, hq⟩
    · -- no alert enqueued by this ingest
      have hids : ((process_traffic p s d).1.alert_queue.drop
          s.alert_queue.length).map Alert.alert_id = [] := by
        rw [hq, List.drop_length]
        rfl
      have hlen : (process_traffic p s d).1.alert_queue.length =
          s.alert_queue.length := by rw [hq]
      obtain ⟨ihp, ihb, ihl⟩ := ih (process_traffic p s d).1 hnr
      refine ⟨?_, ?_, ?_⟩
      · simpa [run_assigned, monitor_step, hids] using ihp
      · intro i hi
        simp only [run_assigned, monitor_step, hids, List.nil_append] at hi ⊢
        obtain ⟨hb1, hb2⟩ := ihb i hi
        exact ⟨hlen ▸ hb1, hb2⟩
      · simp only [run_assigned, monitor_step]
        exact hlen ▸ ihl
    · -- one alert with id = length + 1 enqueued by this ingest
      have hids : ((process_traffic p s d).1.alert_queue.drop
          s.alert_queue.length).map Alert.alert_id = [a.alert_id] := by
        rw [hq, List.drop_left]
        rfl
      have hlen : (process_traffic p s d).1.alert_queue.length =
          s.alert_queue.length + 1 := by
        rw [hq, List.length_append, List.length_cons, List.length_nil]
      obtain ⟨ihp, ihb, ihl⟩ := ih (process_traffic p s d).1 hnr
      refine ⟨?_, ?_, ?_⟩
      · simp only [run_assigned, monitor_step, hids, List.cons_append,
          List.nil_append]
        refine List.Pairwise.cons ?_ ihp
        intro j hj
        have := (ihb j hj).1
        omega
      · intro i hi
        simp only [run_assigned, monitor_step, hids, List.cons_append,
          List.nil_append, List.mem_cons] at hi ⊢
        rcases hi with rfl | hi
        · constructor
          · omega
          · have := ihl
            omega
        · obtain ⟨hb1, hb2⟩ := ihb i hi
          constructor
          · omega
          · exact hb2
      · simp only [run_assigned, monitor_step]
        have := ihl
        omega

/-- C9 (amended): each newly enqueued alert receives id = current queue
length + 1, so within any operation sequence containing no `clearAlerts`
the assigned alert ids are strictly increasing and never reused;
`clear_alerts` resets the queue, after which ids restart from 1. -/
theorem alert_ids_increasing_without_clear (p : ThreatPredictor)
    (s : MonitorState) (ops : List MonitorOp)
    (h : MonitorOp.clearAlerts ∉ ops) :
    List.Pairwise (fun i j => i < j) (run_assigned p s ops).2 :=
  (run_assigned_no_clear p ops s h).1

/-- Witness for the amended C9: two successive threat ingests with no
intervening clear assign strictly increasing alert ids. -/
theorem alert_ids_increasing_without_clear_witness :
    MonitorOp.clearAlerts ∉
      [MonitorOp.ingest sshSynTraffic, MonitorOp.ingest sshSynTraffic] ∧
    List.Pairwise (fun i j => i < j)
      (run_assigned highPredictor emptyMonitor
        [MonitorOp.ingest sshSynTraffic, MonitorOp.ingest sshSynTraffic]).2 :=
  ⟨by decide, alert_ids_increasing_without_clear highPredictor emptyMonitor
    [MonitorOp.ingest sshSynTraffic, MonitorOp.ingest sshSynTraffic]
    (by decide)⟩

/-- `process_traffic` with the `(True, 0.92)` classifier always appends
one alert whose id is the current queue length plus one. -/
theorem process_traffic_highPredictor_queue (s : MonitorState) :
    (process_traffic highPredictor s sshSynTraffic).1.alert_queue =
      s.alert_queue ++ [makeAlert s.alert_queue.length sshSynTraffic highPred] := by
  unfold process_traffic
  rw [predict_single_highPredictor]
  dsimp only
  rw [if_pos ⟨rfl, Or.inl rfl⟩]

/-- Counterexample to C9 as stated: in the run ingest–clear–ingest, both
alerts are assigned id 1 — the id sequence `[1, 1]` is not strictly
increasing, so an alert id is reused after `clear_alerts`. -/
theorem alert_id_reused_after_clear :
    (run_assigned highPredictor emptyMonitor
      [MonitorOp.ingest sshSynTraffic, MonitorOp.clearAlerts,
        MonitorOp.ingest sshSynTraffic]).2 = [1, 1] ∧
    ¬ List.Pairwise (fun i j => i < j)
      (run_assigned highPredictor emptyMonitor
        [MonitorOp.ingest sshSynTraffic, MonitorOp.clearAlerts,
          MonitorOp.ingest sshSynTraffic]).2 := by
  have h : (run_assigned highPredictor emptyMonitor
      [MonitorOp.ingest sshSynTraffic, MonitorOp.clearAlerts,
        MonitorOp.ingest sshSynTraffic]).2 = [1, 1] := by
    simp only [run_assigned, monitor_step, clear_alerts,
      process_traffic_highPredictor_queue, emptyMonitor]
    simp [makeAlert]
  refine ⟨h, ?_⟩
  rw [h]
  intro hp
  have := List.rel_of_pairwise_cons hp (List.mem_singleton.mpr rfl)
  omega

end AICyber
